import Mathlib

/-
Shallow embedding of the RedditToTelegram bot (reddit_to_telegram.py).

Strings are Lean `String`s; all character-level operations used by the
source (substring test, lowercasing, query stripping, HTML-entity
unescaping, whitespace splitting) are implemented over `String.data`
so that every definition evaluates by kernel reduction.

Python values of loosely-typed attributes are modelled as follows:
- an attribute that may be absent or `None` (or, for `media` and
  `preview`, a falsy empty object) is an `Option`;
- `media_metadata` is an association list from media-id to descriptor;
  the source iterates `sorted(keys)` and indexes the dict, which is
  modelled by sorting the key list and using `List.lookup`;
- network and filesystem effects are an explicit environment `Env`:
  every outbound HTTP request is a `Call`, and `Env.net` decides whether
  it succeeds, fails with `requests.exceptions.RequestException`
  (raised by `raise_for_status` or the transport), or raises some other
  exception; the yt-dlp subprocess and the direct video download are
  oracles returning the produced temporary file, `none` on any failure.
Python exceptions are modelled with `Except PyExn`; a `try/except`
block is a `match` on the possible outcomes.
-/

/-! ## Character and string helpers -/

/-- Whitespace test used for python `str.split()` / `str.strip()` (ASCII model). -/
def isWs (c : Char) : Bool :=
  c.toNat = 32 || c.toNat = 9 || c.toNat = 10 || c.toNat = 13 || c.toNat = 11 || c.toNat = 12

/-- Does the first list start with the second (the pattern)? -/
def startsWithChars : List Char → List Char → Bool
  | _, [] => true
  | [], _ :: _ => false
  | a :: as, p :: ps => a == p && startsWithChars as ps

/-- Substring occurrence over character lists. -/
def hasSubChars : List Char → List Char → Bool
  | [], pat => pat.isEmpty
  | a :: t, pat => startsWithChars (a :: t) pat || hasSubChars t pat

/-- Python `pat in s` on strings (substring containment). -/
def strContains (s pat : String) : Bool := hasSubChars s.data pat.data

/-- ASCII lowercase of one character, python `str.lower()` model. -/
def chLower (c : Char) : Char :=
  if 65 ≤ c.toNat ∧ c.toNat ≤ 90 then Char.ofNat (c.toNat + 32) else c

/-- Python `s.lower()` (ASCII model). -/
def strToLower (s : String) : String := String.mk (s.data.map chLower)

/-- ASCII uppercase test, python `str.isupper()` model for a single character. -/
def chIsUpper (c : Char) : Bool := 65 ≤ c.toNat && c.toNat ≤ 90

/-- Characters before the first question mark: python `url.split('?')[0]`. -/
def takeBeforeQM : List Char → List Char
  | [] => []
  | c :: t => if c == '?' then [] else c :: takeBeforeQM t

/-- Python `url.split('?')[0]`. -/
def stripQuery (s : String) : String := String.mk (takeBeforeQM s.data)

/-- Left-to-right non-overlapping replacement of `&amp;` by `&`. -/
def replaceAmp : List Char → List Char
  | '&' :: 'a' :: 'm' :: 'p' :: ';' :: rest => '&' :: replaceAmp rest
  | c :: rest => c :: replaceAmp rest
  | [] => []

/-- Python `url.replace('&amp;', '&')`. -/
def unescapeAmp (s : String) : String := String.mk (replaceAmp s.data)

/-- Python `str.strip()` on the character list. -/
def trimChars (l : List Char) : List Char :=
  ((l.dropWhile isWs).reverse.dropWhile isWs).reverse

/-- Python `str.strip()`. -/
def strTrim (s : String) : String := String.mk (trimChars s.data)

/-- Accumulator pass for python `str.split()` (split on whitespace runs, no empties). -/
def wordsAux : List Char → List Char → List String
  | [], cur => if cur.isEmpty then [] else [String.mk cur.reverse]
  | c :: t, cur =>
    if isWs c then
      (if cur.isEmpty then wordsAux t [] else String.mk cur.reverse :: wordsAux t [])
    else wordsAux t (c :: cur)

/-- Python `str.split()` with no argument. -/
def pySplitWs (s : String) : List String := wordsAux s.data []

/-- Lexicographic comparison of character lists by code point, python string `<=`. -/
def strListLe : List Char → List Char → Bool
  | [], _ => true
  | _ :: _, [] => false
  | a :: as, b :: bs =>
    if a.toNat < b.toNat then true
    else if a.toNat = b.toNat then strListLe as bs
    else false

/-- Python string comparison `a <= b`. -/
def strLe (a b : String) : Bool := strListLe a.data b.data

/-- Python `sorted(keys)` for a list of string keys. -/
def sortKeys (l : List String) : List String :=
  List.insertionSort (fun a b => strLe a b = true) l

/-- Python truthiness of an optional string (absent or empty means falsy). -/
def optTruthy (a : Option String) : Bool :=
  match a with
  | some s => !s.data.isEmpty
  | none => false

/-- Python `a or b` on two optional strings. -/
def pyOr (a b : Option String) : Option String :=
  if optTruthy a then a else b

/-! ## Data model -/

/-- Outcome the environment assigns to one outbound HTTP request. -/
inductive NetOutcome
  | ok
  | requestError
  | otherError
deriving DecidableEq

/-- Python exception classes the embedding distinguishes. -/
inductive PyExn
  | requestException
  | osError
  | jsonDecodeError
  | otherException
deriving DecidableEq

/-- One outbound delivery request to the Telegram API. -/
inductive Call
  | videoSend (file : String) (caption : String)
  | photoSend (photo : String) (caption : String)
  | textSend (text : String)
deriving DecidableEq

/-- Record stored in `failed_messages.json` (see `add_failed_message`). -/
structure FailedMsg where
  message : String
  media_url : Option String
  post_url : Option String
  timestamp : String
  retry_count : Nat
deriving DecidableEq

/-- External world: network outcomes, filesystem, subprocess downloader, clock. -/
structure Env where
  net : Call → NetOutcome
  fileExists : String → Bool
  openOk : String → Bool
  ytdlp : String → Option String
  httpDownload : String → Option String
  now : String

/-- Best-quality variant of a `media_metadata` entry (field `s`). -/
structure SField where
  u : Option String
deriving DecidableEq

/-- One original-resolution variant (an element of field `o`). -/
structure OEntry where
  u : Option String
deriving DecidableEq

/-- One preview variant (an element of field `p`); absent dimensions default to 0. -/
structure PEntry where
  x : Nat
  y : Nat
  u : Option String
deriving DecidableEq

/-- One `media_metadata` descriptor. `e` is the kind tag; URL fields are optional. -/
structure MediaInfo where
  e : Option String
  s : Option SField := none
  o : List OEntry := []
  p : List PEntry := []
  hlsUrl : Option String := none
  dashUrl : Option String := none
deriving DecidableEq

/-- Embedded video descriptor (`reddit_video` / `reddit_video_preview`). -/
structure RedditVideoDesc where
  fallback_url : String
deriving DecidableEq

/-- Oembed descriptor inside `media`. -/
structure OEmbed where
  thumbnail_url : Option String
deriving DecidableEq

/-- The `media` attribute, when present and truthy. -/
structure MediaObj where
  reddit_video : Option RedditVideoDesc := none
  oembed : Option OEmbed := none
deriving DecidableEq

/-- The `source` sub-object of a preview image. -/
structure PSource where
  url : Option String
deriving DecidableEq

/-- One element of `preview['images']`. -/
structure PreviewImage where
  source : Option PSource
deriving DecidableEq

/-- The `preview` attribute, when present and truthy. -/
structure PreviewObj where
  images : List PreviewImage := []
  reddit_video_preview : Option RedditVideoDesc := none
deriving DecidableEq

/-- A candidate post as the bot reads it from the feed. -/
structure Post where
  id : String
  title : String
  permalink : String
  url : String
  is_self : Bool
  over_18 : Bool
  is_video : Bool
  media : Option MediaObj := none
  media_metadata : Option (List (String × MediaInfo)) := none
  preview : Option PreviewObj := none
deriving DecidableEq

/-- Relevant configuration values (with config-file defaults already applied). -/
structure Config where
  send_text_only_posts : Bool
  debug_emoji : Bool
  bot_link : String
  max_posts_per_check : Nat
deriving DecidableEq

/-- In-memory mutable state of the bot: processed-post ids and the failure queue. -/
structure BotState where
  processed : List String
  failed : List FailedMsg
deriving DecidableEq

/-- Python truthiness of the `media_metadata` attribute (absent or empty dict is falsy). -/
def mmTruthy (mm : Option (List (String × MediaInfo))) : Bool :=
  match mm with
  | some l => !l.isEmpty
  | none => false

/-! ## Extension and domain sets used by the source -/

/-- Image extensions recognized by `download_reddit_image` (line 252). -/
def image_extension_list : List String := [".jpg", ".jpeg", ".png", ".gif", ".webp"]

/-- Image extensions accepted by the photo-send branch of `send_telegram_message` (line 616). -/
def photo_send_extension_list : List String := [".jpg", ".jpeg", ".png", ".gif"]

/-- Video extensions used by the debug-emoji selection (line 536). -/
def video_extension_list : List String := [".mp4", ".webm", ".mov"]

/-- Media extensions checked by `has_media_content` (line 488). -/
def media_extension_list : List String :=
  [".jpg", ".jpeg", ".png", ".gif", ".webp", ".mp4", ".webm", ".mov"]

/-- Known video-host substrings checked by `has_media_content` (line 493). -/
def video_domain_list : List String :=
  ["youtube.com", "youtu.be", "v.redd.it", "reddit.com/gallery"]

/-! ## extract_model_name (lines 503-521) -/

/-- Character class removed by the `re.sub` on line 512; note it includes the
space character, so the cleaned segment loses its spaces. -/
def removedChars : List Char :=
  ['0', '1', '2', '3', '4', '5', '6', '7', '8', '9',
   '@', '#', '$', '%', '^', '&', '*', '(', ')', '_', '+', '=', '[', ']',
   Char.ofNat 123, Char.ofNat 125, ';', Char.ofNat 39, Char.ofNat 34, ':',
   ' ', ',', '.', '<', '>', '?', '/', '~', Char.ofNat 96]

/-- Group 1 of `re.search(r'^([^|]+)\s*\|', title)`: everything before the first
pipe, provided the title contains a pipe and does not start with one. -/
def matchLeadingSegment (title : String) : Option String :=
  let pre := title.data.takeWhile (fun c => c != '|')
  if title.data.contains '|' && !pre.isEmpty then some (String.mk pre) else none

/-- The `re.sub` on line 512: drop every character of `removedChars`. -/
def stripSpecialChars (l : List Char) : List Char :=
  l.filter (fun c => !(removedChars.contains c))

/-- Line 516: does some nonempty word start with an uppercase letter and have
length greater than one? -/
def anyProperWord (ws : List String) : Bool :=
  ws.any (fun w =>
    match w.data with
    | c :: rest => chIsUpper c && !rest.isEmpty
    | [] => false)

/-- Embedding of `extract_model_name` (lines 503-521). -/
def extract_model_name (title : String) : Option String :=
  match matchLeadingSegment title with
  | none => none
  | some seg =>
    let potential_name := strTrim seg
    let clean_name := String.mk (stripSpecialChars potential_name.data)
    let ws := pySplitWs clean_name
    if anyProperWord ws then some potential_name else none

/-! ## format_post_message (lines 523-573) -/

/-- Template used when a subject name was extracted (lines 553-558). -/
def standardMessageWithName (name bot_link : String) : String :=
  "🔥 *" ++ name ++ "* • *COMPLETO NO VIP* 🔥\n\n💎 Quer acessar o melhor conteúdo exclusivo?\n🎯 *Conteúdo Premium*: Curadoria especial para membros que buscam qualidade e variedade!\n\n🚀 *VIP COMPLETO* - [CLIQUE AQUI](" ++ bot_link ++ ") 🚀"

/-- Template used when no subject name was extracted (lines 560-565). -/
def standardMessageNoName (bot_link : String) : String :=
  "🔥 *COMPLETO NO VIP* 🔥\n\n💎 Quer acessar o melhor conteúdo exclusivo?\n🎯 *Conteúdo Premium*: Curadoria especial para membros que buscam qualidade e variedade!\n\n🚀 *VIP COMPLETO* - [CLIQUE AQUI](" ++ bot_link ++ ") 🚀"

/-- Embedding of `format_post_message` (lines 523-573). -/
def format_post_message (cfg : Config) (post : Post) : String :=
  let debug_emoji :=
    if cfg.debug_emoji then
      if post.is_video then "🎥"
      else if !post.url.data.isEmpty && !post.is_self then
        if image_extension_list.any (fun ext => strContains (strToLower post.url) ext) then "🖼️"
        else if video_extension_list.any (fun ext => strContains (strToLower post.url) ext) then "🎬"
        else if strContains (strToLower post.url) "youtube.com" ||
                strContains (strToLower post.url) "youtu.be" then "📺"
        else if strContains (strToLower post.url) "reddit.com/gallery" then "🖼️"
        else "🔗"
      else "📝"
    else ""
  let standard_message :=
    match extract_model_name post.title with
    | some name => standardMessageWithName name cfg.bot_link
    | none => standardMessageNoName cfg.bot_link
  if !debug_emoji.data.isEmpty then debug_emoji ++ "\n\n" ++ standard_message
  else standard_message

/-! ## media_metadata scan shared by image and video resolution -/

/-- Loop body of `for media_id in sorted_media_ids: ...` — look the key up,
keep only entries whose kind tag matches, take the first for which the
extractor produces a URL; entries with the right tag but no extractable URL
are skipped (the source has no `break` in that case). -/
def scanKeys (tag : String) (extract : MediaInfo → Option String) :
    List String → List (String × MediaInfo) → Option String
  | [], _ => none
  | k :: ks, mm =>
    match mm.lookup k with
    | some info =>
      if info.e = some tag then
        match extract info with
        | some u => some u
        | none => scanKeys tag extract ks mm
      else scanKeys tag extract ks mm
    | none => scanKeys tag extract ks mm

/-- Scan `media_metadata` in sorted key order (lines 226-248 and 303-316). -/
def scanMeta (mm : List (String × MediaInfo)) (tag : String)
    (extract : MediaInfo → Option String) : Option String :=
  scanKeys tag extract (sortKeys (mm.map Prod.fst)) mm

/-- Best-quality candidate: `'s' in media_info and 'u' in media_info['s']`. -/
def sCand (mi : MediaInfo) : Option String :=
  match mi.s with
  | some sv => sv.u
  | none => none

/-- Original-resolution candidate: `'o' in mi and len(mi['o']) > 0 and 'u' in mi['o'][0]`. -/
def oCand (mi : MediaInfo) : Option String :=
  match mi.o with
  | e0 :: _ => e0.u
  | [] => none

/-- Sort key of `max(media_info['p'], key=lambda x: x.get('x', 0) * x.get('y', 0))`. -/
def previewProduct (pe : PEntry) : Nat := pe.x * pe.y

/-- Python `max` with a key: keeps the first element among maxima. -/
def largestPreview : List PEntry → Option PEntry
  | [] => none
  | p0 :: ps =>
    some (ps.foldl (fun acc q => if previewProduct acc < previewProduct q then q else acc) p0)

/-- Preview candidate: largest width-times-height variant, if it carries a URL. -/
def pCand (mi : MediaInfo) : Option String :=
  match mi.p with
  | [] => none
  | p0 :: ps =>
    match largestPreview (p0 :: ps) with
    | some lp => lp.u
    | none => none

/-- Preference chain inside one `Image`-tagged entry (lines 231-248). -/
def preferImage (mi : MediaInfo) : Option String :=
  match sCand mi with
  | some u => some u
  | none =>
    match oCand mi with
    | some u => some u
    | none => pCand mi

/-- Preference inside one `RedditVideo`-tagged entry: HLS over DASH (lines 308-316). -/
def hlsDashCand (mi : MediaInfo) : Option String :=
  match mi.hlsUrl with
  | some u => some u
  | none => mi.dashUrl

/-! ## download_reddit_image (lines 218-275) -/

/-- Embedding of `download_reddit_image`: returns the chosen remote URL with
`&amp;` unescaped, or `none`. The exception handler of the source cannot fire
in the structured model, and the function performs no network effect. -/
def download_reddit_image (post : Post) : Option String :=
  let m1 : Option String :=
    match post.media_metadata with
    | some mm => if mm.isEmpty then none else scanMeta mm "Image" preferImage
    | none => none
  let m2 : Option String :=
    match m1 with
    | some u => some u
    | none =>
      if !post.is_self &&
          image_extension_list.any (fun ext => strContains (strToLower post.url) ext) then
        some post.url
      else none
  let m3 : Option String :=
    match m2 with
    | some u => some u
    | none =>
      match post.preview with
      | some pv =>
        match pv.images with
        | pi0 :: _ =>
          match pi0.source with
          | some src => src.url
          | none => none
        | [] => none
      | none => none
  match m3 with
  | some u => some (unescapeAmp u)
  | none => none

/-! ## download_reddit_video (lines 277-358) and convert_hls_to_mp4 (lines 360-456) -/

/-- Tier 1 (lines 283-291): native video posts. -/
def videoMethod1 (post : Post) : Option String :=
  if post.is_video then
    let fromMedia : Option String :=
      match post.media with
      | some m =>
        match m.reddit_video with
        | some rv => some rv.fallback_url
        | none =>
          match m.oembed with
          | some oe => oe.thumbnail_url
          | none => none
      | none => none
    match fromMedia with
    | some u => some u
    | none =>
      if strContains post.url "v.redd.it" then some (post.url ++ "/DASH_720.mp4") else none
  else none

/-- Tier 2 (lines 293-298): embedded video in a self-text post (only reached
when `is_video` is false, because of the `elif`). -/
def videoMethod2 (post : Post) : Option String :=
  if !post.is_video && post.is_self then
    match post.media with
    | some m =>
      match m.reddit_video with
      | some rv => some rv.fallback_url
      | none => none
    | none => none
  else none

/-- Tier 3 (lines 300-316): first `RedditVideo` entry of `media_metadata` in
sorted key order, HLS preferred over DASH. -/
def videoMethod3 (post : Post) : Option String :=
  match post.media_metadata with
  | some mm => if mm.isEmpty then none else scanMeta mm "RedditVideo" hlsDashCand
  | none => none

/-- Tier 4 (lines 318-323): the preview's video fallback. -/
def videoMethod4 (post : Post) : Option String :=
  match post.preview with
  | some pv =>
    match pv.reddit_video_preview with
    | some rv => some rv.fallback_url
    | none => none
  | none => none

/-- The priority-ordered URL selection of `download_reddit_video`. -/
def selectVideoUrl (post : Post) : Option String :=
  match videoMethod1 post with
  | some u => some u
  | none =>
    match videoMethod2 post with
    | some u => some u
    | none =>
      match videoMethod3 post with
      | some u => some u
      | none => videoMethod4 post

/-- Line 331: is the URL an HLS playlist or DASH manifest? -/
def isManifestUrl (u : String) : Bool :=
  strContains u "HLSPlaylist.m3u8" || strContains u "DASHPlaylist.mpd"

/-- Embedding of `convert_hls_to_mp4` (lines 360-456): the yt-dlp subprocess,
the glob for the produced file and every failure branch (non-zero exit,
timeout, missing binary) collapse into the downloader oracle, which returns
the non-empty produced file or `none`. -/
def convert_hls_to_mp4 (env : Env) (reddit_url : String) : Option String :=
  env.ytdlp reddit_url

/-- Embedding of `download_reddit_video` (lines 277-358): pick a URL, strip the
query string unless the URL is a manifest, then either transcode via yt-dlp
(manifest) or fetch the file directly to a temporary file (`Env.httpDownload`,
`none` when the request raises — caught by the outer handler). -/
def download_reddit_video (env : Env) (post : Post) : Option String :=
  match selectVideoUrl post with
  | none => none
  | some v0 =>
    let v1 := if isManifestUrl v0 then v0 else stripQuery v0
    if isManifestUrl v1 then convert_hls_to_mp4 env post.url
    else env.httpDownload v1

/-! ## has_media_content (lines 467-501) -/

/-- Embedding of `has_media_content`. -/
def has_media_content (post : Post) : Bool :=
  if post.is_video then true
  else if mmTruthy post.media_metadata then true
  else if post.media.isSome then true
  else if post.preview.isSome then true
  else if !post.is_self && !post.url.data.isEmpty then
    media_extension_list.any (fun ext => strContains (strToLower post.url) ext) ||
      video_domain_list.any (fun d => strContains (strToLower post.url) d)
  else false

/-! ## Delivery pipeline (lines 193-214 and 575-662) -/

/-- Embedding of `send_text_message` (lines 193-214): one `sendMessage` request;
every exception is caught inside the function, so it always returns a Bool. -/
def send_text_message (env : Env) (message : String) : Bool × List Call :=
  match env.net (Call.textSend message) with
  | NetOutcome.ok => (true, [Call.textSend message])
  | NetOutcome.requestError => (false, [Call.textSend message])
  | NetOutcome.otherError => (false, [Call.textSend message])

/-- Embedding of `add_failed_message` (lines 141-152): append a fresh record
with retry counter 0 (the save it performs catches its own errors). -/
def add_failed_message (env : Env) (failed : List FailedMsg) (message : String)
    (media_url : Option String) (post_url : Option String) : List FailedMsg :=
  failed ++ [{ message := message, media_url := media_url, post_url := post_url,
               timestamp := env.now, retry_count := 0 }]

/-- Origin-link suffix appended to fallback texts when `post_url` is truthy. -/
def postLinkSuffix (post_url : Option String) : String :=
  if optTruthy post_url then "\n📝 [Ver post original](" ++ post_url.getD "" ++ ")"
  else ""

/-- Fallback text after a failed video send (lines 609-611). -/
def videoFallbackText (message : String) (post_url : Option String) : String :=
  message ++ "\n\n⚠️ Vídeo não pôde ser enviado" ++ postLinkSuffix post_url

/-- Fallback text after a failed photo send (lines 643-649). -/
def photoFallbackText (message : String) (u : String) (post_url : Option String)
    (is_nsfw : Bool) : String :=
  (if is_nsfw then message ++ "\n\n⚠️ Conteúdo não pôde ser enviado"
   else message ++ "\n\n⚠️ Imagem não pôde ser enviada\n🔗 Link: " ++ u) ++
    postLinkSuffix post_url

/-- Photo/text part of `send_telegram_message` (lines 615-655): reached when no
local video file is sent. Result: python return value (always `Except.ok` —
the outer handler converts any escape to `False`), the failure queue after the
call, and the trace of outbound requests. -/
def sendPhotoOrText (env : Env) (message : String) (media_url : Option String)
    (video_file_path : Option String) (post_url : Option String) (is_nsfw : Bool)
    (failed : List FailedMsg) : Except PyExn Bool × List FailedMsg × List Call :=
  match media_url with
  | some u =>
    if optTruthy (some u) &&
        photo_send_extension_list.any (fun ext => strContains (strToLower u) ext) then
      match env.net (Call.photoSend u message) with
      | NetOutcome.ok => (Except.ok true, failed, [Call.photoSend u message])
      | NetOutcome.requestError =>
        let failed1 := add_failed_message env failed message (some u) post_url
        let r := send_text_message env (photoFallbackText message u post_url is_nsfw)
        (Except.ok r.1, failed1, Call.photoSend u message :: r.2)
      | NetOutcome.otherError =>
        (Except.ok false,
          add_failed_message env failed message (pyOr (some u) video_file_path) post_url,
          [Call.photoSend u message])
    else
      let r := send_text_message env message
      (Except.ok r.1, failed, r.2)
  | none =>
    let r := send_text_message env message
    (Except.ok r.1, failed, r.2)

/-- Embedding of `send_telegram_message` (lines 575-662). The inner handlers
catch only `requests.exceptions.RequestException`; any other exception (for
example the `open` failing with `OSError`, or a non-request error from the
send) reaches the outer `except Exception`, which enqueues a failure record
when media was involved and returns `False`. -/
def send_telegram_message (env : Env) (message : String) (media_url : Option String)
    (video_file_path : Option String) (post_url : Option String) (is_nsfw : Bool)
    (failed : List FailedMsg) : Except PyExn Bool × List FailedMsg × List Call :=
  match video_file_path with
  | some f =>
    if optTruthy (some f) && env.fileExists f then
      if env.openOk f then
        match env.net (Call.videoSend f message) with
        | NetOutcome.ok => (Except.ok true, failed, [Call.videoSend f message])
        | NetOutcome.requestError =>
          let failed1 := add_failed_message env failed message (some f) post_url
          let r := send_text_message env (videoFallbackText message post_url)
          (Except.ok r.1, failed1, Call.videoSend f message :: r.2)
        | NetOutcome.otherError =>
          (Except.ok false,
            add_failed_message env failed message (pyOr media_url (some f)) post_url,
            [Call.videoSend f message])
      else
        (Except.ok false,
          add_failed_message env failed message (pyOr media_url (some f)) post_url, [])
    else sendPhotoOrText env message media_url video_file_path post_url is_nsfw failed
  | none => sendPhotoOrText env message media_url video_file_path post_url is_nsfw failed

/-! ## Failure queue drain: retry_failed_messages (lines 154-191) -/

/-- Text rebuilt for a queued record (lines 165-167). -/
def retryText (r : FailedMsg) : String :=
  r.message ++
    (if optTruthy r.post_url then "\n\n🔗 [Ver post original](" ++ r.post_url.getD "" ++ ")"
     else "")

/-- The in-place `failed_msg['retry_count'] += 1`. -/
def incRetry (r : FailedMsg) : FailedMsg :=
  { r with retry_count := r.retry_count + 1 }

/-- One pass of the drain loop: each record is updated in place and paired with
whether its index was appended to `messages_to_remove` (success, or retry
counter having reached 3 after the increment). -/
def drainPass (env : Env) : List FailedMsg → List (FailedMsg × Bool)
  | [] => []
  | r :: rs =>
    if (send_text_message env (retryText r)).1 then (r, true) :: drainPass env rs
    else
      let r1 := incRetry r
      (r1, decide (3 ≤ r1.retry_count)) :: drainPass env rs

/-- Indices appended to `messages_to_remove` (in increasing order). -/
def marksOf {α : Type} : List (α × Bool) → List Nat
  | [] => []
  | (_, b) :: l => if b then 0 :: (marksOf l).map (· + 1) else (marksOf l).map (· + 1)

/-- The removal loop `for i in reversed(messages_to_remove): list.pop(i)`. -/
def popAll {α : Type} (l : List α) (idxs : List Nat) : List α :=
  idxs.reverse.foldl (fun acc i => acc.eraseIdx i) l

/-- Embedding of `retry_failed_messages` (lines 154-191). First component: the
in-memory queue after the drain. Second component: the contents written to
`failed_messages.json` by the final `save_failed_messages`, or `none` when the
save was not performed (the source saves only `if messages_to_remove:`). -/
def retry_failed_messages (env : Env) (msgs : List FailedMsg) :
    List FailedMsg × Option (List FailedMsg) :=
  if msgs.isEmpty then (msgs, none)
  else
    let passed := drainPass env msgs
    let updated := passed.map Prod.fst
    let toRemove := marksOf passed
    let remaining := popAll updated toRemove
    (remaining, if toRemove.isEmpty then none else some remaining)

/-- Per-record drain semantics, stated the way the specification describes it:
a successful resend removes the record; a failed resend increments the counter
by exactly one and removes the record when the counter reaches 3. Used to
characterize `retry_failed_messages`. -/
def drainSpec (env : Env) : List FailedMsg → List FailedMsg
  | [] => []
  | r :: rs =>
    if (send_text_message env (retryText r)).1 then drainSpec env rs
    else if 3 ≤ r.retry_count + 1 then drainSpec env rs
    else incRetry r :: drainSpec env rs

/-! ## Persistence loads (lines 110-131) -/

/-- Possible outcomes of reading one persisted state file. -/
inductive ReadResult (α : Type)
  | missing
  | found (v : α)
  | malformed

/-- Embedding of `load_processed_posts` (lines 110-116): only
`FileNotFoundError` is caught; a present file with malformed JSON raises
`json.JSONDecodeError`, which propagates out of the function. -/
def load_processed_posts : ReadResult (List String) → Except PyExn (List String)
  | ReadResult.missing => Except.ok []
  | ReadResult.found l => Except.ok l
  | ReadResult.malformed => Except.error PyExn.jsonDecodeError

/-- Embedding of `load_failed_messages` (lines 123-131): the whole body is in
`try/except Exception`, so every failure degrades to the empty list. -/
def load_failed_messages : ReadResult (List FailedMsg) → List FailedMsg
  | ReadResult.missing => []
  | ReadResult.found l => l
  | ReadResult.malformed => []

/-! ## Orchestration: the per-post body of check_subreddits (lines 672-748) -/

/-- Embedding of one iteration of the post loop in `check_subreddits`:
dedup check, the text-only skip, media resolution (video first, then image for
NSFW or link posts), delivery, and the processed-set update on success.
Returns the new state and the trace of outbound delivery requests.
Logging, the courtesy sleep, temp-file cleanup and the periodic
`save_processed_posts` checkpoint have no bearing on the claims and are not
modelled. -/
def processPost (env : Env) (cfg : Config) (st : BotState) (post : Post) :
    BotState × List Call :=
  if st.processed.contains post.id then (st, [])
  else
    let send_text_only := cfg.send_text_only_posts
    let has_media := has_media_content post
    if !send_text_only && !has_media then
      ({ st with processed := st.processed.insert post.id }, [])
    else
      let is_nsfw := post.over_18
      let message := format_post_message cfg post
      let media_url0 : Option String := if post.is_self then none else some post.url
      let vfile := download_reddit_video env post
      let mediaPair : Option String × Option String :=
        match vfile with
        | some f => (none, some f)
        | none =>
          if is_nsfw || !post.is_self then
            match download_reddit_image post with
            | some iu => (some iu, none)
            | none => (media_url0, none)
          else (media_url0, none)
      let post_url := "https://reddit.com" ++ post.permalink
      let res := send_telegram_message env message mediaPair.1 mediaPair.2
        (some post_url) is_nsfw st.failed
      let success := match res.1 with | Except.ok b => b | Except.error _ => false
      ({ processed := if success then st.processed.insert post.id else st.processed,
         failed := res.2.1 }, res.2.2)

/-! ## Claim-side predicates for the subject-name extraction claim -/

/-- Modelled from the claim's wording: the punctuation-and-digit class is the
source's removal class without the space character (a space is neither
punctuation nor a digit). -/
def punctDigitChars : List Char := removedChars.filter (fun c => c.toNat ≠ 32)

/-- Claim-side cleaning: strip only punctuation and digits from the segment. -/
def claimStripPunctDigits (s : String) : String :=
  String.mk (s.data.filter (fun c => !(punctDigitChars.contains c)))

/-- Claim-side tokens remaining after stripping punctuation and digits. -/
def claimTokens (s : String) : List String := pySplitWs (claimStripPunctDigits s)

/-- Claim-side acceptance: at least one remaining token starts with an
uppercase letter and has length greater than one. -/
def claimAccepts (s : String) : Bool := anyProperWord (claimTokens s)

/-- Amended acceptance: punctuation, digits AND spaces stripped (the class the
source actually removes), then the token test. -/
def claimAcceptsAmended (s : String) : Bool :=
  anyProperWord (pySplitWs (String.mk (stripSpecialChars s.data)))

/-- Last element of a call trace (the final request attempted). -/
def lastOf {α : Type} : List α → Option α
  | [] => none
  | [a] => some a
  | _ :: b :: t => lastOf (b :: t)

/-! ## Concrete sample values used by witnesses -/

/-- Environment in which every network request succeeds. -/
def envAllOk : Env :=
  ⟨fun _ => NetOutcome.ok, fun _ => true, fun _ => true, fun _ => none, fun _ => none, "t0"⟩

/-- Environment in which every network request raises a RequestException. -/
def envAllFail : Env :=
  ⟨fun _ => NetOutcome.requestError, fun _ => true, fun _ => true,
   fun _ => none, fun _ => none, "t0"⟩

/-- A queued failure record with retry counter 0. -/
def sampleFailedMsg : FailedMsg := ⟨"m", none, none, "t", 0⟩

/-- A RedditVideo descriptor carrying both an HLS and a DASH URL. -/
def c3entry : MediaInfo :=
  ⟨some "RedditVideo", none, [], [],
   some "https://v.redd.it/abc/HLSPlaylist.m3u8?a=1",
   some "https://v.redd.it/abc/DASHPlaylist.mpd?a=1"⟩

/-- Metadata map whose smallest key holds `c3entry`. -/
def c3mm : List (String × MediaInfo) :=
  [("idA", c3entry), ("idB", ⟨some "Image", some ⟨some "https://i/x.jpg"⟩, [], [], none, none⟩)]

/-- A post whose only video source is `c3mm`. -/
def c3post : Post :=
  ⟨"p3", "T", "/r/x/3", "https://reddit.com/p3", false, true, false, none, some c3mm, none⟩

/-- A native video post whose fallback URL is an HLS manifest. -/
def c7post : Post :=
  ⟨"p7", "T", "/r/x/7", "https://reddit.com/r/x/comments/7", false, false, true,
   some ⟨some ⟨"https://v.redd.it/xyz/HLSPlaylist.m3u8?token=1"⟩, none⟩, none, none⟩

/-- An Image descriptor with best-quality, original and preview URLs. -/
def c8entry : MediaInfo :=
  ⟨some "Image", some ⟨some "https://i.redd.it/a.jpg?s=1"⟩,
   [⟨some "https://i.redd.it/a-orig.jpg"⟩], [⟨100, 100, some "https://preview/a.jpg"⟩],
   none, none⟩

/-- Metadata map whose smallest Image key holds `c8entry`. -/
def c8mm : List (String × MediaInfo) :=
  [("k1", c8entry), ("k2", ⟨some "RedditVideo", none, [], [], none, none⟩)]

/-- A gallery post carrying `c8mm`. -/
def c8post : Post :=
  ⟨"p8", "T", "/r/x/8", "", true, true, false, none, some c8mm, none⟩

/-- A self-text post with no media at all. -/
def c9post : Post :=
  ⟨"p9", "hello world", "/r/x/9", "https://reddit.com/r/x/9", true, false, false,
   none, none, none⟩

/-- A configuration with `send_text_only_posts = false`. -/
def c9cfg : Config := ⟨false, true, "https://t.me/b", 10⟩

/-- A bot state that has not yet processed `c9post`. -/
def c9state : BotState := ⟨["other"], []⟩

/-- A link post whose direct URL only matches the `.webp` extension. -/
def c10post : Post :=
  ⟨"pA", "T", "/r/x/a", "https://i.redd.it/pic.webp", false, true, false, none, none, none⟩

/-! ## Order lemmas for the key sort -/

theorem chToNat_inj {a b : Char} (h : a.toNat = b.toNat) : a = b := by
  have := congrArg Char.ofNat h
  simpa [Char.ofNat_toNat] using this

theorem strListLe_total : ∀ a b : List Char, strListLe a b = true ∨ strListLe b a = true
  | [], _ => Or.inl rfl
  | _ :: _, [] => Or.inr rfl
  | a :: as, b :: bs => by
    rcases Nat.lt_trichotomy a.toNat b.toNat with h | h | h
    · exact Or.inl (by simp [strListLe, h])
    · rcases strListLe_total as bs with ih | ih
      · exact Or.inl (by simp [strListLe, h, Nat.lt_irrefl, ih])
      · exact Or.inr (by simp [strListLe, h.symm, Nat.lt_irrefl, ih])
    · exact Or.inr (by simp [strListLe, h])

theorem strListLe_trans : ∀ a b c : List Char,
    strListLe a b = true → strListLe b c = true → strListLe a c = true
  | [], _, _, _, _ => rfl
  | _ :: _, [], _, h1, _ => by simp [strListLe] at h1
  | _ :: _, _ :: _, [], _, h2 => by simp [strListLe] at h2
  | a :: as, b :: bs, c :: cs, h1, h2 => by
    rcases Nat.lt_trichotomy a.toNat b.toNat with hab | hab | hab
    · rcases Nat.lt_trichotomy b.toNat c.toNat with hbc | hbc | hbc
      · simp [strListLe, Nat.lt_trans hab hbc]
      · simp [strListLe, hbc ▸ hab]
      · simp [strListLe, Nat.lt_asymm hbc, (Nat.ne_of_gt hbc)] at h2
    · rcases Nat.lt_trichotomy b.toNat c.toNat with hbc | hbc | hbc
      · simp [strListLe, hab ▸ hbc]
      · have h1r : strListLe as bs = true := by
          simpa [strListLe, hab, Nat.lt_irrefl] using h1
        have h2r : strListLe bs cs = true := by
          simpa [strListLe, hbc, Nat.lt_irrefl] using h2
        simp [strListLe, hab, hbc, Nat.lt_irrefl, strListLe_trans as bs cs h1r h2r]
      · simp [strListLe, Nat.lt_asymm hbc, (Nat.ne_of_gt hbc)] at h2
    · simp [strListLe, Nat.lt_asymm hab, (Nat.ne_of_gt hab)] at h1

theorem strListLe_antisymm : ∀ a b : List Char,
    strListLe a b = true → strListLe b a = true → a = b
  | [], [], _, _ => rfl
  | [], _ :: _, _, h2 => by simp [strListLe] at h2
  | _ :: _, [], h1, _ => by simp [strListLe] at h1
  | a :: as, b :: bs, h1, h2 => by
    rcases Nat.lt_trichotomy a.toNat b.toNat with hab | hab | hab
    · simp [strListLe, Nat.lt_asymm hab, (Nat.ne_of_gt hab)] at h2
    · have h1r : strListLe as bs = true := by
        simpa [strListLe, hab, Nat.lt_irrefl] using h1
      have h2r : strListLe bs as = true := by
        simpa [strListLe, hab.symm, Nat.lt_irrefl] using h2
      rw [chToNat_inj hab, strListLe_antisymm as bs h1r h2r]
    · simp [strListLe, Nat.lt_asymm hab, (Nat.ne_of_gt hab)] at h1

theorem strLe_antisymm {a b : String} (h1 : strLe a b = true) (h2 : strLe b a = true) :
    a = b := by
  cases a with
  | mk da =>
    cases b with
    | mk db => exact congrArg String.mk (strListLe_antisymm da db h1 h2)

instance strLeIsTotal : IsTotal String (fun a b => strLe a b = true) :=
  ⟨fun a b => strListLe_total a.data b.data⟩

instance strLeIsTrans : IsTrans String (fun a b => strLe a b = true) :=
  ⟨fun a b c => strListLe_trans a.data b.data c.data⟩

/-! ## Lookup lemmas -/

theorem lookup_mem {β : Type} (k : String) (v : β) :
    ∀ l : List (String × β), l.lookup k = some v → (k, v) ∈ l
  | [], h => by simp [List.lookup] at h
  | (a, b) :: t, h => by
    by_cases hk : k == a
    · simp only [List.lookup, hk, cond_true, Option.some.injEq] at h
      have : k = a := eq_of_beq hk
      subst this
      subst h
      exact List.mem_cons_self _ _
    · have hbeq : (k == a) = false := by
        cases hkb : (k == a)
        · rfl
        · exact absurd hkb hk
      simp only [List.lookup, hbeq] at h
      exact List.mem_cons_of_mem _ (lookup_mem k v t h)

theorem lookup_of_mem_nodup {β : Type} (k : String) (v : β) :
    ∀ l : List (String × β), (l.map Prod.fst).Nodup → (k, v) ∈ l → l.lookup k = some v
  | [], _, hm => by simp at hm
  | (a, b) :: t, hnd, hm => by
    rcases List.mem_cons.mp hm with he | ht
    · rw [Prod.mk.injEq] at he
      rcases he with ⟨h1, h2⟩
      subst h1; subst h2
      simp [List.lookup]
    · have hk : k ≠ a := by
        intro hka
        subst hka
        have h1 : k ∈ t.map Prod.fst := List.mem_map.mpr ⟨(k, v), ht, rfl⟩
        have h2 : k ∉ t.map Prod.fst := by
          have := hnd
          simp only [List.map_cons] at this
          exact (List.nodup_cons.mp this).1
        exact h2 h1
      have hbeq : (k == a) = false := beq_eq_false_iff_ne.mpr hk
      simp only [List.lookup, hbeq, cond_false]
      have hndt : (t.map Prod.fst).Nodup := by
        have := hnd
        simp only [List.map_cons] at this
        exact (List.nodup_cons.mp this).2
      exact lookup_of_mem_nodup k v t hndt ht

/-! ## Scan lemma: sorted iteration finds the minimal tagged key -/

theorem scanKeys_skip (tag : String) (extract : MediaInfo → Option String)
    (mm : List (String × MediaInfo)) :
    ∀ ks1 ks2 : List String,
      (∀ x ∈ ks1, ∀ ex, mm.lookup x = some ex → ex.e ≠ some tag) →
      scanKeys tag extract (ks1 ++ ks2) mm = scanKeys tag extract ks2 mm
  | [], _, _ => rfl
  | x :: xs, ks2, hskip => by
    have hxs : ∀ y ∈ xs, ∀ ex, mm.lookup y = some ex → ex.e ≠ some tag :=
      fun y hy => hskip y (List.mem_cons_of_mem _ hy)
    cases hlk : mm.lookup x with
    | none =>
      simp only [List.cons_append, scanKeys, hlk]
      exact scanKeys_skip tag extract mm xs ks2 hxs
    | some info =>
      have hnt : info.e ≠ some tag := hskip x (List.mem_cons_self _ _) info hlk
      simp only [List.cons_append, scanKeys, hlk, if_neg hnt]
      exact scanKeys_skip tag extract mm xs ks2 hxs

theorem scanMeta_min (mm : List (String × MediaInfo)) (tag : String)
    (extract : MediaInfo → Option String) (k : String) (e : MediaInfo) (u : String)
    (hnd : (mm.map Prod.fst).Nodup)
    (hmem : (k, e) ∈ mm)
    (htag : e.e = some tag)
    (hex : extract e = some u)
    (hmin : ∀ p ∈ mm, p.2.e = some tag → strLe k p.1 = true) :
    scanMeta mm tag extract = some u := by
  have hkkeys : k ∈ mm.map Prod.fst := List.mem_map.mpr ⟨(k, e), hmem, rfl⟩
  have hperm : (sortKeys (mm.map Prod.fst)).Perm (mm.map Prod.fst) :=
    List.perm_insertionSort _ _
  have hsorted : List.Sorted (fun a b => strLe a b = true) (sortKeys (mm.map Prod.fst)) :=
    List.sorted_insertionSort _ _
  have hndsk : (sortKeys (mm.map Prod.fst)).Nodup := hperm.nodup_iff.mpr hnd
  have hksk : k ∈ sortKeys (mm.map Prod.fst) := hperm.mem_iff.mpr hkkeys
  obtain ⟨l1, l2, hsplit⟩ := List.append_of_mem hksk
  have hskip : ∀ x ∈ l1, ∀ ex, mm.lookup x = some ex → ex.e ≠ some tag := by
    intro x hx ex hlk htagx
    have hxk : strLe x k = true := by
      have hp : List.Pairwise (fun a b => strLe a b = true)
          (l1 ++ k :: l2) := by
        rw [← hsplit]; exact hsorted
      exact (List.pairwise_append.mp hp).2.2 x hx k (List.mem_cons_self _ _)
    have hne : x ≠ k := by
      have hn : (l1 ++ k :: l2).Nodup := by rw [← hsplit]; exact hndsk
      have hd := (List.nodup_append.mp hn).2.2
      intro he
      exact hd hx (he ▸ List.mem_cons_self _ _)
    have hkx : strLe k x = true := hmin (x, ex) (lookup_mem x ex mm hlk) htagx
    exact hne (strLe_antisymm hxk hkx)
  rw [scanMeta, hsplit, scanKeys_skip tag extract mm l1 (k :: l2) hskip]
  simp [scanKeys, lookup_of_mem_nodup k e mm hnd hmem, htag, hex]

/-! ## Drain lemmas -/

theorem send_text_trace (env : Env) (msg : String) :
    (send_text_message env msg).2 = [Call.textSend msg] := by
  unfold send_text_message
  cases env.net (Call.textSend msg) <;> rfl

theorem send_text_true_iff (env : Env) (msg : String) :
    (send_text_message env msg).1 = true ↔ env.net (Call.textSend msg) = NetOutcome.ok := by
  unfold send_text_message
  cases h : env.net (Call.textSend msg) <;> simp

theorem foldl_erase_mapSucc {α : Type} :
    ∀ (js : List Nat) (a : α) (t : List α),
      List.foldl (fun acc i => acc.eraseIdx i) (a :: t) (js.map (· + 1)) =
        a :: List.foldl (fun acc i => acc.eraseIdx i) t js
  | [], _, _ => rfl
  | j :: js, a, t => by
    simp only [List.map_cons, List.foldl_cons, List.eraseIdx_cons_succ]
    exact foldl_erase_mapSucc js a (t.eraseIdx j)

theorem popAll_cons_unmarked {α : Type} (a : α) (t : List α) (js : List Nat) :
    popAll (a :: t) (js.map (· + 1)) = a :: popAll t js := by
  unfold popAll
  rw [← List.map_reverse, foldl_erase_mapSucc]

theorem popAll_cons_marked {α : Type} (a : α) (t : List α) (js : List Nat) :
    popAll (a :: t) (0 :: js.map (· + 1)) = popAll t js := by
  unfold popAll
  rw [List.reverse_cons, List.foldl_append, ← List.map_reverse, foldl_erase_mapSucc]
  rfl

theorem popAll_marks {α : Type} :
    ∀ l : List (α × Bool),
      popAll (l.map Prod.fst) (marksOf l) = (l.filter (fun p => !p.2)).map Prod.fst
  | [] => rfl
  | (a, b) :: l => by
    cases b
    · rw [show marksOf ((a, false) :: l) = (marksOf l).map (· + 1) from by simp [marksOf]]
      simp only [List.map_cons]
      rw [popAll_cons_unmarked, popAll_marks l]
      simp [List.filter]
    · rw [show marksOf ((a, true) :: l) = 0 :: (marksOf l).map (· + 1) from by simp [marksOf]]
      simp only [List.map_cons]
      rw [popAll_cons_marked, popAll_marks l]
      simp [List.filter]

theorem drainPass_fst_filter (env : Env) :
    ∀ msgs : List FailedMsg,
      ((drainPass env msgs).filter (fun p => !p.2)).map Prod.fst = drainSpec env msgs
  | [] => rfl
  | r :: rs => by
    unfold drainPass drainSpec
    by_cases hs : (send_text_message env (retryText r)).1
    · simp [hs, drainPass_fst_filter env rs]
    · by_cases hc : 3 ≤ r.retry_count + 1
      · have hd : decide (3 ≤ (incRetry r).retry_count) = true := by
          simp [incRetry, hc]
        simp [hs, hd, hc, drainPass_fst_filter env rs]
      · have hd : decide (3 ≤ (incRetry r).retry_count) = false := by
          simp [incRetry]
          omega
        simp [hs, hd, hc, drainPass_fst_filter env rs]

theorem drainPass_length (env : Env) :
    ∀ msgs : List FailedMsg, (drainPass env msgs).length = msgs.length
  | [] => rfl
  | r :: rs => by
    unfold drainPass
    by_cases hs : (send_text_message env (retryText r)).1 <;>
      simp [hs, drainPass_length env rs]

theorem retry_fst (env : Env) (msgs : List FailedMsg) :
    (retry_failed_messages env msgs).1 = drainSpec env msgs := by
  unfold retry_failed_messages
  by_cases h : msgs.isEmpty
  · rw [List.isEmpty_iff] at h
    subst h
    simp [drainSpec]
  · simp only [h, Bool.false_eq_true, if_false]
    rw [popAll_marks, drainPass_fst_filter]

theorem drainSpec_lt (env : Env) :
    ∀ msgs : List FailedMsg, ∀ r ∈ drainSpec env msgs, r.retry_count < 3
  | [], r, hr => by simp [drainSpec] at hr
  | m :: ms, r, hr => by
    unfold drainSpec at hr
    by_cases hs : (send_text_message env (retryText m)).1
    · rw [if_pos hs] at hr
      exact drainSpec_lt env ms r hr
    · rw [if_neg hs] at hr
      by_cases hc : 3 ≤ m.retry_count + 1
      · rw [if_pos hc] at hr
        exact drainSpec_lt env ms r hr
      · rw [if_neg hc] at hr
        rcases List.mem_cons.mp hr with he | ht
        · subst he
          simp only [incRetry]
          omega
        · exact drainSpec_lt env ms r ht

theorem marksOf_nil_iff {α : Type} :
    ∀ l : List (α × Bool), marksOf l = [] ↔ ∀ p ∈ l, p.2 = false
  | [] => by simp [marksOf]
  | (a, b) :: l => by
    cases b
    · rw [show marksOf ((a, false) :: l) = (marksOf l).map (· + 1) from by simp [marksOf]]
      rw [List.map_eq_nil_iff, marksOf_nil_iff l]
      simp
    · rw [show marksOf ((a, true) :: l) = 0 :: (marksOf l).map (· + 1) from by simp [marksOf]]
      simp

theorem filter_length_lt_iff {α : Type} (q : α → Bool) (l : List α) :
    (l.filter q).length < l.length ↔ ¬∀ a ∈ l, q a = true := by
  constructor
  · intro h hall
    rw [List.filter_eq_self.mpr hall] at h
    omega
  · intro h
    have hle : (l.filter q).length ≤ l.length := (List.filter_sublist l).length_le
    rcases Nat.lt_or_ge (l.filter q).length l.length with hlt | hge
    · exact hlt
    · exfalso
      have heq : (l.filter q).length = l.length := le_antisymm hle hge
      have : l.filter q = l := (List.filter_sublist l).eq_of_length heq
      exact h (List.filter_eq_self.mp this)

theorem retry_snd_eq (env : Env) (msgs : List FailedMsg) (h : msgs.isEmpty = false) :
    (retry_failed_messages env msgs).2 =
      if (marksOf (drainPass env msgs)).isEmpty then none
      else some (retry_failed_messages env msgs).1 := by
  unfold retry_failed_messages
  simp [h]

theorem retry_length_lt_iff (env : Env) (msgs : List FailedMsg) :
    (retry_failed_messages env msgs).1.length < msgs.length ↔
      ¬(marksOf (drainPass env msgs)).isEmpty = true := by
  rw [retry_fst, ← drainPass_fst_filter, List.length_map,
    show msgs.length = (drainPass env msgs).length from (drainPass_length env msgs).symm,
    filter_length_lt_iff, List.isEmpty_iff, marksOf_nil_iff]
  constructor
  · intro hn hall
    apply hn
    intro p hp
    simp [hall p hp]
  · intro hn hall
    apply hn
    intro p hp
    have := hall p hp
    simpa using this

/-- Claim C2: during a drain of the failure queue each unsuccessful retry
increments the record's counter by exactly one, a record whose counter reaches
3 is removed in that same drain (as is every successfully resent record), and
consequently every record remaining after the drain has a counter strictly
below 3 — so no record is ever attempted a 4th time. The first conjunct
characterizes the post-drain queue by the per-record semantics `drainSpec`. -/
theorem retry_drain_characterization (env : Env) (msgs : List FailedMsg) :
    (retry_failed_messages env msgs).1 = drainSpec env msgs ∧
      ∀ r ∈ (retry_failed_messages env msgs).1, r.retry_count < 3 := by
  refine ⟨retry_fst env msgs, ?_⟩
  intro r hr
  rw [retry_fst env msgs] at hr
  exact drainSpec_lt env msgs r hr

/-- Witness for C2 at a concrete one-record queue whose retry fails. -/
theorem retry_drain_characterization_witness :
    (retry_failed_messages envAllFail [sampleFailedMsg]).1 =
        drainSpec envAllFail [sampleFailedMsg] ∧
      ∀ r ∈ (retry_failed_messages envAllFail [sampleFailedMsg]).1, r.retry_count < 3 :=
  retry_drain_characterization envAllFail [sampleFailedMsg]

/-- Claim C5 counterexample: a drain in which the single record's retry fails
increments its in-memory counter from 0 to 1 but performs no save at all —
the persisted file does not reflect the post-drain state. -/
theorem retry_no_flush_on_increment :
    (retry_failed_messages envAllFail [sampleFailedMsg]).2 = none ∧
      (retry_failed_messages envAllFail [sampleFailedMsg]).1 = [⟨"m", none, none, "t", 1⟩] := by
  exact ⟨rfl, rfl⟩

/-- Claim C5 amended: the drain flushes the queue to the state file only when
at least one record was removed during that drain (and then the flushed
contents are exactly the post-drain in-memory queue); a drain that only
increments retry counters does not write the file. -/
theorem retry_flush_iff_removal (env : Env) (msgs : List FailedMsg) :
    ((retry_failed_messages env msgs).2 = none ∨
        (retry_failed_messages env msgs).2 = some (retry_failed_messages env msgs).1) ∧
      ((retry_failed_messages env msgs).2 ≠ none ↔
        (retry_failed_messages env msgs).1.length < msgs.length) := by
  by_cases h : msgs.isEmpty = true
  · rw [List.isEmpty_iff] at h
    subst h
    refine ⟨Or.inl rfl, ?_⟩
    simp [retry_failed_messages]
  · have hne : msgs.isEmpty = false := by
      cases hb : msgs.isEmpty
      · rfl
      · exact absurd hb h
    have hsnd := retry_snd_eq env msgs hne
    by_cases hm : (marksOf (drainPass env msgs)).isEmpty = true
    · refine ⟨Or.inl (by rw [hsnd, if_pos hm]), ?_⟩
      rw [hsnd, if_pos hm]
      simp only [ne_eq, not_true_eq_false, false_iff]
      rw [retry_length_lt_iff]
      simp [hm]
    · refine ⟨Or.inr (by rw [hsnd, if_neg hm]), ?_⟩
      rw [hsnd, if_neg hm]
      simp only [ne_eq, reduceCtorEq, not_false_eq_true, true_iff]
      rw [retry_length_lt_iff]
      simp [hm]

/-- Witness for C5's amended statement at a concrete queue whose single record
is successfully resent (hence removed and flushed). -/
theorem retry_flush_iff_removal_witness :
    ((retry_failed_messages envAllOk [sampleFailedMsg]).2 = none ∨
        (retry_failed_messages envAllOk [sampleFailedMsg]).2 =
          some (retry_failed_messages envAllOk [sampleFailedMsg]).1) ∧
      ((retry_failed_messages envAllOk [sampleFailedMsg]).2 ≠ none ↔
        (retry_failed_messages envAllOk [sampleFailedMsg]).1.length <
          [sampleFailedMsg].length) :=
  retry_flush_iff_removal envAllOk [sampleFailedMsg]

/-- Claim C6 counterexample: a present but malformed `processed_posts.json`
does not degrade to the empty set — `load_processed_posts` re-raises the JSON
decode error (only `FileNotFoundError` is caught), aborting startup. -/
theorem load_processed_malformed_raises :
    load_processed_posts ReadResult.malformed = Except.error PyExn.jsonDecodeError := rfl

/-- Claim C6 amended: a missing file loads as the empty state for both the
ProcessedSet and the FailureQueue, and the FailureQueue load also degrades to
the empty list on malformed contents; but the ProcessedSet load returns empty
only for a missing file — malformed contents raise and abort startup. -/
theorem load_state_degraded :
    load_processed_posts ReadResult.missing = Except.ok [] ∧
      load_failed_messages ReadResult.missing = [] ∧
      load_failed_messages ReadResult.malformed = [] ∧
      (∀ l : List FailedMsg, load_failed_messages (ReadResult.found l) = l) ∧
      load_processed_posts ReadResult.malformed = Except.error PyExn.jsonDecodeError :=
  ⟨rfl, rfl, rfl, fun _ => rfl, rfl⟩

/-- Claim C4 counterexample: for the title `"ana Maria | x"` the leading
segment is matched and, after stripping only punctuation and digits as the
claim describes, the token `"Maria"` starts with an uppercase letter and has
length greater than one — so the claim's acceptance condition holds — yet the
source extracts no name, because its removal class also strips spaces and the
collapsed token `"anaMaria"` starts with a lowercase letter. -/
theorem extract_name_space_counterexample :
    matchLeadingSegment "ana Maria | x" = some "ana Maria " ∧
      strTrim "ana Maria " = "ana Maria" ∧
      claimAccepts "ana Maria" = true ∧
      extract_model_name "ana Maria | x" = none := by
  refine ⟨?_, ?_, ?_, ?_⟩ <;> decide

/-- Claim C4 amended: subject-name extraction matches the leading segment
before a pipe, strips punctuation, digits AND spaces from it, and accepts the
(trimmed) segment iff at least one remaining token starts with an uppercase
letter and has length greater than 1; "Ana Maria | Special post" yields
"Ana Maria" and "123 | no name" yields no name (and "ana Maria | x" yields
no name, where the un-amended claim would accept). -/
theorem extract_model_name_amended :
    extract_model_name "Ana Maria | Special post" = some "Ana Maria" ∧
      extract_model_name "123 | no name" = none ∧
      extract_model_name "ana Maria | x" = none ∧
      ∀ title : String,
        extract_model_name title =
          match matchLeadingSegment title with
          | none => none
          | some seg =>
            if claimAcceptsAmended (strTrim seg) then some (strTrim seg) else none := by
  refine ⟨by decide, by decide, by decide, ?_⟩
  intro title
  unfold extract_model_name claimAcceptsAmended
  cases matchLeadingSegment title <;> rfl

theorem sendPhotoOrText_spec (env : Env) (message : String) (media_url : Option String)
    (video_file_path : Option String) (post_url : Option String) (is_nsfw : Bool)
    (failed : List FailedMsg) :
    ∃ b failed2 calls,
      sendPhotoOrText env message media_url video_file_path post_url is_nsfw failed =
        (Except.ok b, failed2, calls) ∧
      (b = true ↔ ∃ c, lastOf calls = some c ∧ env.net c = NetOutcome.ok) := by
  cases media_url with
  | none =>
    refine ⟨(send_text_message env message).1, failed, (send_text_message env message).2,
      rfl, ?_⟩
    rw [send_text_trace]
    simp [lastOf, send_text_true_iff]
  | some u =>
    by_cases hcond : (optTruthy (some u) &&
        photo_send_extension_list.any (fun ext => strContains (strToLower u) ext)) = true
    · cases hnet : env.net (Call.photoSend u message) with
      | ok =>
        refine ⟨true, failed, [Call.photoSend u message], ?_, ?_⟩
        · simp [sendPhotoOrText, hcond, hnet]
        · simp [lastOf, hnet]
      | requestError =>
        refine ⟨(send_text_message env (photoFallbackText message u post_url is_nsfw)).1,
          add_failed_message env failed message (some u) post_url,
          Call.photoSend u message ::
            (send_text_message env (photoFallbackText message u post_url is_nsfw)).2,
          ?_, ?_⟩
        · simp [sendPhotoOrText, hcond, hnet]
        · rw [send_text_trace]
          simp [lastOf, send_text_true_iff]
      | otherError =>
        refine ⟨false,
          add_failed_message env failed message (pyOr (some u) video_file_path) post_url,
          [Call.photoSend u message], ?_, ?_⟩
        · simp [sendPhotoOrText, hcond, hnet]
        · simp [lastOf, hnet]
    · rw [Bool.not_eq_true] at hcond
      refine ⟨(send_text_message env message).1, failed, (send_text_message env message).2,
        ?_, ?_⟩
      · simp [sendPhotoOrText, hcond]
      · rw [send_text_trace]
        simp [lastOf, send_text_true_iff]

/-- Claim C1: `send_telegram_message` never propagates an exception — its
python return value is always `Except.ok` of a Bool — and that Bool is `true`
exactly when the last transmission attempted (the primary video or photo send,
or the text fallback) was confirmed successful by the endpoint; every network
error is caught and converted into the fallback behaviour embodied in the
definition. -/
theorem send_telegram_message_total (env : Env) (message : String)
    (media_url : Option String) (video_file_path : Option String)
    (post_url : Option String) (is_nsfw : Bool) (failed : List FailedMsg) :
    ∃ b failed2 calls,
      send_telegram_message env message media_url video_file_path post_url is_nsfw failed =
        (Except.ok b, failed2, calls) ∧
      (b = true ↔ ∃ c, lastOf calls = some c ∧ env.net c = NetOutcome.ok) := by
  cases video_file_path with
  | none =>
    obtain ⟨b, f2, cs, heq, hiff⟩ :=
      sendPhotoOrText_spec env message media_url none post_url is_nsfw failed
    refine ⟨b, f2, cs, ?_, hiff⟩
    simpa [send_telegram_message] using heq
  | some f =>
    by_cases hff : (optTruthy (some f) && env.fileExists f) = true
    · by_cases hopen : env.openOk f = true
      · cases hnet : env.net (Call.videoSend f message) with
        | ok =>
          refine ⟨true, failed, [Call.videoSend f message], ?_, ?_⟩
          · simp [send_telegram_message, hff, hopen, hnet]
          · simp [lastOf, hnet]
        | requestError =>
          refine ⟨(send_text_message env (videoFallbackText message post_url)).1,
            add_failed_message env failed message (some f) post_url,
            Call.videoSend f message ::
              (send_text_message env (videoFallbackText message post_url)).2, ?_, ?_⟩
          · simp [send_telegram_message, hff, hopen, hnet]
          · rw [send_text_trace]
            simp [lastOf, send_text_true_iff]
        | otherError =>
          refine ⟨false,
            add_failed_message env failed message (pyOr media_url (some f)) post_url,
            [Call.videoSend f message], ?_, ?_⟩
          · simp [send_telegram_message, hff, hopen, hnet]
          · simp [lastOf, hnet]
      · rw [Bool.not_eq_true] at hopen
        refine ⟨false,
          add_failed_message env failed message (pyOr media_url (some f)) post_url,
          [], ?_, ?_⟩
        · simp [send_telegram_message, hff, hopen]
        · simp [lastOf]
    · rw [Bool.not_eq_true] at hff
      obtain ⟨b, f2, cs, heq, hiff⟩ :=
        sendPhotoOrText_spec env message media_url (some f) post_url is_nsfw failed
      refine ⟨b, f2, cs, ?_, hiff⟩
      simpa [send_telegram_message, hff] using heq

/-- Witness for C1 at a concrete call. -/
theorem send_telegram_message_total_witness :
    ∃ b failed2 calls,
      send_telegram_message envAllOk "msg" none none none false [] =
        (Except.ok b, failed2, calls) ∧
      (b = true ↔ ∃ c, lastOf calls = some c ∧ envAllOk.net c = NetOutcome.ok) :=
  send_telegram_message_total envAllOk "msg" none none none false []

/-- Claim C9: a post that is not yet processed, is self-text and has no media
content is — when `send_text_only_posts` is false — added to the processed set
and skipped: no delivery request of any kind (text, photo or video) is made
and the failure queue is untouched. -/
theorem skip_text_only_marks_processed (env : Env) (cfg : Config) (st : BotState)
    (post : Post)
    (hcfg : cfg.send_text_only_posts = false)
    (hself : post.is_self = true)
    (hvid : post.is_video = false)
    (hmedia : post.media = none)
    (hmm : mmTruthy post.media_metadata = false)
    (hpre : post.preview = none)
    (hnew : st.processed.contains post.id = false) :
    processPost env cfg st post =
      ({ st with processed := st.processed.insert post.id }, []) := by
  have hhm : has_media_content post = false := by
    unfold has_media_content
    rw [hvid, hmm, hmedia, hpre, hself]
    simp
  unfold processPost
  rw [hnew]
  simp [hcfg, hhm]

/-- Witness for C9: a concrete self-text post with no media is marked
processed with an empty delivery trace. -/
theorem skip_text_only_marks_processed_witness :
    c9cfg.send_text_only_posts = false ∧
      c9post.is_self = true ∧
      has_media_content c9post = false ∧
      processPost envAllOk c9cfg c9state c9post =
        ({ c9state with processed := c9state.processed.insert c9post.id }, []) :=
  ⟨rfl, rfl, by decide,
    skip_text_only_marks_processed envAllOk c9cfg c9state c9post rfl rfl rfl rfl rfl rfl
      (by decide)⟩

/-- Claim C3: when no earlier video-resolution tier matched and the
minimal-key `RedditVideo` entry of `media_metadata` (the first one in the
sorted scan) carries both an HLS and a DASH URL, resolution selects its HLS
URL, never its DASH URL. -/
theorem video_selects_hls (post : Post) (mm : List (String × MediaInfo)) (k : String)
    (e : MediaInfo) (h d : String)
    (hmm : post.media_metadata = some mm)
    (hnd : (mm.map Prod.fst).Nodup)
    (h1 : videoMethod1 post = none)
    (h2 : videoMethod2 post = none)
    (hmem : (k, e) ∈ mm)
    (htag : e.e = some "RedditVideo")
    (hhls : e.hlsUrl = some h)
    (hdash : e.dashUrl = some d)
    (hmin : ∀ p ∈ mm, p.2.e = some "RedditVideo" → strLe k p.1 = true) :
    selectVideoUrl post = some h := by
  have hscan : scanMeta mm "RedditVideo" hlsDashCand = some h :=
    scanMeta_min mm "RedditVideo" hlsDashCand k e h hnd hmem htag
      (by simp [hlsDashCand, hhls]) hmin
  have hne : mm.isEmpty = false := by
    cases mm
    · simp at hmem
    · rfl
  have hm3 : videoMethod3 post = some h := by
    simp [videoMethod3, hmm, hne, hscan]
  simp [selectVideoUrl, h1, h2, hm3]

/-- Witness for C3: the minimal-key RedditVideo entry of `c3mm` carries both
URLs and resolution returns the HLS one. -/
theorem video_selects_hls_witness :
    videoMethod1 c3post = none ∧
      videoMethod2 c3post = none ∧
      c3entry.hlsUrl = some "https://v.redd.it/abc/HLSPlaylist.m3u8?a=1" ∧
      c3entry.dashUrl = some "https://v.redd.it/abc/DASHPlaylist.mpd?a=1" ∧
      selectVideoUrl c3post = some "https://v.redd.it/abc/HLSPlaylist.m3u8?a=1" :=
  ⟨by decide, by decide, rfl, rfl,
    video_selects_hls c3post c3mm "idA" c3entry
      "https://v.redd.it/abc/HLSPlaylist.m3u8?a=1"
      "https://v.redd.it/abc/DASHPlaylist.mpd?a=1"
      rfl (by decide) (by decide) (by decide) (by decide) rfl rfl rfl (by decide)⟩

/-- Claim C7: whenever video resolution selects a URL containing an HLS
playlist or DASH manifest marker, the URL is never returned as a sendable
handle — the resolver's result is exactly the outcome of the yt-dlp transcode
step invoked on the post's public page URL (a local file, or `none` on
failure). -/
theorem manifest_routes_to_transcode (env : Env) (post : Post) (u : String)
    (hsel : selectVideoUrl post = some u)
    (hman : isManifestUrl u = true) :
    download_reddit_video env post = convert_hls_to_mp4 env post.url := by
  unfold download_reddit_video
  rw [hsel]
  simp [hman]

/-- Witness for C7 at a native video post resolving to an HLS manifest. -/
theorem manifest_routes_to_transcode_witness :
    selectVideoUrl c7post = some "https://v.redd.it/xyz/HLSPlaylist.m3u8?token=1" ∧
      isManifestUrl "https://v.redd.it/xyz/HLSPlaylist.m3u8?token=1" = true ∧
      download_reddit_video envAllOk c7post = convert_hls_to_mp4 envAllOk c7post.url :=
  ⟨by decide, by decide,
    manifest_routes_to_transcode envAllOk c7post
      "https://v.redd.it/xyz/HLSPlaylist.m3u8?token=1" (by decide) (by decide)⟩

/-- Claim C8: image resolution selects the entry with the lexicographically
smallest media-id among the `Image`-tagged entries of `media_metadata`, and
within that entry prefers the best-quality URL, else the original-resolution
URL, else the preview variant with the largest width-times-height product
(the returned URL is the chosen one with `&amp;` unescaped). -/
theorem image_selects_min_key (post : Post) (mm : List (String × MediaInfo)) (k : String)
    (e : MediaInfo)
    (hmm : post.media_metadata = some mm)
    (hnd : (mm.map Prod.fst).Nodup)
    (hmem : (k, e) ∈ mm)
    (htag : e.e = some "Image")
    (hmin : ∀ p ∈ mm, p.2.e = some "Image" → strLe k p.1 = true) :
    (∀ us, sCand e = some us → download_reddit_image post = some (unescapeAmp us)) ∧
      (sCand e = none → ∀ uo, oCand e = some uo →
        download_reddit_image post = some (unescapeAmp uo)) ∧
      (sCand e = none → oCand e = none → ∀ up, pCand e = some up →
        download_reddit_image post = some (unescapeAmp up)) := by
  have hne : mm.isEmpty = false := by
    cases mm
    · simp at hmem
    · rfl
  have key : ∀ u, preferImage e = some u →
      download_reddit_image post = some (unescapeAmp u) := by
    intro u hpref
    have hscan : scanMeta mm "Image" preferImage = some u :=
      scanMeta_min mm "Image" preferImage k e u hnd hmem htag hpref hmin
    unfold download_reddit_image
    rw [hmm]
    simp [hne, hscan]
  refine ⟨?_, ?_, ?_⟩
  · intro us hs
    exact key us (by simp [preferImage, hs])
  · intro hs uo ho
    exact key uo (by simp [preferImage, hs, ho])
  · intro hs ho up hp
    exact key up (by simp [preferImage, hs, ho, hp])

/-- Witness for C8: the minimal Image key of `c8mm` carries a best-quality
URL and resolution returns it (unescaped). -/
theorem image_selects_min_key_witness :
    sCand c8entry = some "https://i.redd.it/a.jpg?s=1" ∧
      download_reddit_image c8post = some (unescapeAmp "https://i.redd.it/a.jpg?s=1") :=
  ⟨rfl,
    (image_selects_min_key c8post c8mm "k1" c8entry rfl (by decide) (by decide) rfl
      (by decide)).1 "https://i.redd.it/a.jpg?s=1" rfl⟩

/-- Claim C10: the extension sets of image resolution and the photo-send
branch disagree on `.webp` — resolution returns a direct `.webp` URL as a
remote image, but delivery with such a URL matches none of `.jpg`, `.jpeg`,
`.png`, `.gif`, so it sends plain text only: no photo request is attempted
and no failure record is enqueued. -/
theorem webp_resolution_delivery_mismatch :
    (∀ post : Post, post.is_self = false → post.media_metadata = none →
      strContains (strToLower post.url) ".webp" = true →
      download_reddit_image post = some (unescapeAmp post.url)) ∧
      (∀ (env : Env) (message u : String) (post_url : Option String) (is_nsfw : Bool)
          (failed : List FailedMsg),
        strContains (strToLower u) ".webp" = true →
        (∀ ext ∈ photo_send_extension_list, strContains (strToLower u) ext = false) →
        send_telegram_message env message (some u) none post_url is_nsfw failed =
          (Except.ok (send_text_message env message).1, failed, [Call.textSend message])) := by
  constructor
  · intro post hself hmm hwebp
    have hany : image_extension_list.any
        (fun ext => strContains (strToLower post.url) ext) = true :=
      List.any_eq_true.mpr ⟨".webp", by simp [image_extension_list], hwebp⟩
    unfold download_reddit_image
    rw [hmm, hself]
    simp [hany]
  · intro env message u post_url is_nsfw failed _ hexts
    have hanyf : photo_send_extension_list.any
        (fun ext => strContains (strToLower u) ext) = false := by
      cases hb : photo_send_extension_list.any (fun ext => strContains (strToLower u) ext)
      · rfl
      · exfalso
        obtain ⟨ext, hin, hc⟩ := List.any_eq_true.mp hb
        rw [hexts ext hin] at hc
        exact absurd hc (by simp)
    unfold send_telegram_message sendPhotoOrText
    simp [hanyf, send_text_trace]

/-- Witness for C10: a concrete `.webp` link post resolves to its URL, and
delivering that URL sends plain text with the failure queue untouched. -/
theorem webp_resolution_delivery_mismatch_witness :
    download_reddit_image c10post = some (unescapeAmp "https://i.redd.it/pic.webp") ∧
      send_telegram_message envAllOk "msg" (some "https://i.redd.it/pic.webp") none none
          false [] =
        (Except.ok (send_text_message envAllOk "msg").1, [], [Call.textSend "msg"]) := by
  constructor
  · exact webp_resolution_delivery_mismatch.1 c10post rfl rfl (by decide)
  · exact webp_resolution_delivery_mismatch.2 envAllOk "msg" "https://i.redd.it/pic.webp"
      none false [] (by decide) (by decide)
